import Mathlib

/-!
# Verification of the multi-trading-bots backend core

A shallow embedding, in Lean 4, of the core logic of the trading-bots
backend: the order executor (backend/core/trade_executor.py), the three
signal engines (backend/bots/momentum_bot.py, grid_bot.py, dca_bot.py),
the scheduler loop (backend/main.py), and the market-data fan-out registry
(backend/api/v1/endpoints/websockets.py).

Python floats are modelled as exact rationals (ℚ), timestamps as integer
seconds (ℤ), Python None-able values as Option, and Python truthiness
explicitly (None, 0 and the empty string are falsy).  Fallible operations
return Option/Except.  Each definition follows the corresponding source
function; the theorems at the end settle the specification claims.
-/

namespace TradingBots

/-! ## Order executor: quantity / price normalization
    (backend/core/trade_executor.py, adjust_quantity_to_step_size and
    adjust_price_to_tick_size) -/

/-- Fueled floor-of-log₁₀ on naturals: for positive n this computes the
number of base-10 digits of n minus one (structural recursion so that the
kernel can evaluate it; the fuel is always instantiated with a bound that
dominates the recursion depth). -/
def natLog10Fuel : ℕ → ℕ → ℕ
  | 0, _ => 0
  | fuel + 1, n => if n < 10 then 0 else natLog10Fuel fuel (n / 10) + 1

/-- Fueled least m with b ≤ a * 10 ^ m. -/
def clog10Fuel : ℕ → ℕ → ℕ → ℕ
  | 0, _, _ => 0
  | fuel + 1, a, b => if b ≤ a then 0 else clog10Fuel fuel (a * 10) b + 1

/-- Greatest k : ℤ with 10 ^ k ≤ s², for a positive rational s, computed
on the numerator/denominator (s is reduced, so s² has numerator s.num²
and denominator s.den²). -/
def floorLog10Sq (s : ℚ) : ℤ :=
  let a := s.num.toNat * s.num.toNat
  let b := s.den * s.den
  if b ≤ a then (natLog10Fuel a (a / b) : ℤ) else -(clog10Fuel b a b : ℤ)

/-- Precision the executor derives from a step/tick size, from the source
line `precision = int(round(-math.log(step, 10), 0)) if step > 0 else 0`.

For a positive rational step, round (-log₁₀ step) = p exactly when
step² lies strictly between 10 ^ (-2p-1) and 10 ^ (-2p+1) (the boundary
step² = 10 ^ odd is impossible for a rational step, so no tie arises).
Writing L = floor (log₁₀ step²), this gives p = -L/2 for even L and
p = -(L+1)/2 for odd L; both integer divisions are exact. -/
def stepPrecision (step : ℚ) : ℤ :=
  if 0 < step then
    let L := floorLog10Sq step
    if L % 2 = 0 then -(L / 2) else -((L + 1) / 2)
  else 0

/-- Embedding of adjust_quantity_to_step_size: floor the quantity to the
precision derived from the step size
(`math.floor(quantity * factor) / factor` with `factor = 10 ** precision`). -/
def adjust_quantity_to_step_size (quantity : ℚ) (step_size : ℚ) : ℚ :=
  let factor : ℚ := 10 ^ stepPrecision step_size
  (⌊quantity * factor⌋ : ℚ) / factor

/-- Embedding of adjust_price_to_tick_size: identical floor-to-precision
rule applied to the price. -/
def adjust_price_to_tick_size (price : ℚ) (tick_size : ℚ) : ℚ :=
  let factor : ℚ := 10 ^ stepPrecision tick_size
  (⌊price * factor⌋ : ℚ) / factor

/-- Sanity checks: the precision derived from common step sizes matches
round (-log₁₀ step). -/
theorem stepPrecision_examples :
    stepPrecision (mkRat 1 1000) = 3 ∧ stepPrecision (mkRat 1 100) = 2 ∧
    stepPrecision (mkRat 1 10) = 1 ∧ stepPrecision 1 = 0 ∧
    stepPrecision 10 = -1 ∧ stepPrecision (mkRat 1 2) = 0 ∧
    stepPrecision (mkRat 3 10) = 1 ∧ stepPrecision 5 = -1 ∧
    stepPrecision (mkRat 1 5) = 1 ∧ stepPrecision 0 = 0 := by
  decide

theorem stepPrecision_thousandth : stepPrecision (1 / 1000) = 3 := by
  rw [show (1 / 1000 : ℚ) = mkRat 1 1000 by norm_num [Rat.mkRat_eq_div]]
  decide

theorem stepPrecision_three_tenths : stepPrecision (3 / 10) = 1 := by
  rw [show (3 / 10 : ℚ) = mkRat 3 10 by norm_num [Rat.mkRat_eq_div]]
  decide

/-! ## Order executor: execute_trade
    (backend/core/trade_executor.py, execute_trade)

    The embedding covers the pre-submission pipeline: parameter validation,
    quantity/price adjustment and the minimum-notional check.  Its result
    is `some params` exactly when the source reaches the
    `client.create_order(**order_params)` call (i.e. the order is submitted
    to the exchange with those parameters), and `none` when the source
    returns None before submitting.  The exchange response handling after
    submission is outside the claims under verification.

    Environment inputs: the cached symbol info (None when the lookup
    failed) and the ticker price the exchange would report (None when the
    ticker fetch would raise). -/

inductive OrderSide where
  | BUY
  | SELL
deriving DecidableEq

inductive OrderType where
  | MARKET
  | LIMIT
deriving DecidableEq

/-- Relevant content of the cached get_symbol_info result: the LOT_SIZE
stepSize, the PRICE_FILTER tickSize, and the MIN_NOTIONAL/NOTIONAL
minNotional, each absent when the corresponding filter is missing. -/
structure SymbolInfo where
  stepSize : Option ℚ
  tickSize : Option ℚ
  minNotional : Option ℚ
deriving DecidableEq

/-- The order_params dictionary assembled by execute_trade. -/
structure OrderParams where
  symbol : String
  side : OrderSide
  type : OrderType
  quantity : Option ℚ := none
  quoteOrderQty : Option ℚ := none
  price : Option ℚ := none
  timeInForce : Option String := none
deriving DecidableEq

/-- Python truthiness of an optional float: None and 0.0 are falsy. -/
def pyTruthy (o : Option ℚ) : Bool :=
  match o with
  | none => false
  | some x => x != 0

/-- Embedding of execute_trade.  Returns the order_params passed to
create_order when the order is submitted, and none when the source
returns None beforehand (missing symbol info, zero adjusted quantity,
missing quantity/price, or failed minimum-notional check). -/
def execute_trade (symbol_info : Option SymbolInfo) (ticker_price : Option ℚ)
    (symbol : String) (side : OrderSide) (order_type : OrderType)
    (quantity : Option ℚ) (quote_order_qty : Option ℚ) (price : Option ℚ) :
    Option OrderParams :=
  match symbol_info with
  | none => none
  | some info =>
    let min_notional : ℚ := info.minNotional.getD 5
    let base : OrderParams := { symbol := symbol, side := side, type := order_type }
    -- quantity adjustment (`if quantity is not None: ... elif side == 'BUY' and
    -- order_type == 'MARKET' and quote_order_qty is not None: ... else return None`)
    let afterQty : Option OrderParams :=
      match quantity with
      | some q =>
        match info.stepSize with
        | some s =>
          let aq := adjust_quantity_to_step_size q s
          if aq ≤ 0 then none else some { base with quantity := some aq }
        | none => some { base with quantity := some q }
      | none =>
        if side = .BUY ∧ order_type = .MARKET ∧ quote_order_qty.isSome then
          some { base with quoteOrderQty := quote_order_qty }
        else none
    match afterQty with
    | none => none
    | some p1 =>
      -- price attachment for LIMIT orders
      let afterPrice : Option OrderParams :=
        match order_type with
        | .MARKET => some p1
        | .LIMIT =>
          match price with
          | none => none
          | some pr =>
            match info.tickSize with
            | some t =>
              some { p1 with price := some (adjust_price_to_tick_size pr t),
                             timeInForce := some "GTC" }
            | none => some { p1 with price := some pr, timeInForce := some "GTC" }
      match afterPrice with
      | none => none
      | some p2 =>
        -- minimum-notional check: `current_order_price = price if order_type ==
        -- 'LIMIT' else None`; the ticker is fetched only when that is falsy AND
        -- the order type is not MARKET (dead for MARKET orders).
        let cop0 : Option ℚ := match order_type with | .LIMIT => price | .MARKET => none
        let cop : Option ℚ :=
          if pyTruthy cop0 = false ∧ order_type ≠ .MARKET then
            match ticker_price with
            | some t => some t
            | none => cop0
          else cop0
        let notional : ℚ :=
          match p2.quoteOrderQty with
          | some qq => qq
          | none =>
            match p2.quantity, cop with
            | some aq, some c => if c ≠ 0 then aq * c else 0
            | _, _ => 0
        if 0 < notional ∧ notional < min_notional then none else some p2

/-! ## Momentum signal engine
    (backend/bots/momentum_bot.py, get_momentum_signal)

    The indicator computation (pandas_ta RSI/MACD/SMA over fetched
    candles) is upstream of the claims; the embedding takes the sequence
    of valid (non-NaN) indicator rows as input and models the decision
    logic of lines 97-123: HOLD when fewer than two valid rows remain,
    otherwise compare the most recent two rows. -/

inductive Signal where
  | BUY
  | SELL
  | HOLD
deriving DecidableEq

/-- One valid row of the indicator dataframe after dropna. -/
structure IndicatorRow where
  close : ℚ
  rsi : ℚ
  macd : ℚ
  macd_hist : ℚ
  macd_signal : ℚ
  sma_short : ℚ
  sma_long : ℚ
deriving DecidableEq

/-- Decision core over the previous and latest indicator rows
(source lines 105-123). -/
def momentum_signal_logic (prev latest : IndicatorRow)
    (rsi_oversold rsi_overbought : ℚ) : Signal :=
  if prev.sma_short ≤ prev.sma_long ∧ latest.sma_long < latest.sma_short ∧
      latest.macd_signal < latest.macd ∧ 0 < latest.macd_hist ∧
      latest.rsi < rsi_overbought then
    .BUY
  else if prev.sma_long ≤ prev.sma_short ∧ latest.sma_short < latest.sma_long ∧
      latest.macd < latest.macd_signal ∧ latest.macd_hist < 0 ∧
      rsi_oversold < latest.rsi then
    .SELL
  else .HOLD

/-- Embedding of get_momentum_signal over the valid indicator rows:
HOLD when fewer than two rows survive dropna, otherwise the decision core
on df.iloc[-2] and df.iloc[-1]. -/
def get_momentum_signal (rows : List IndicatorRow)
    (rsi_oversold rsi_overbought : ℚ) : Signal :=
  if h : rows.length < 2 then .HOLD
  else
    momentum_signal_logic (rows.get ⟨rows.length - 2, by omega⟩)
      (rows.get ⟨rows.length - 1, by omega⟩) rsi_oversold rsi_overbought

/-! ## Grid signal engine
    (backend/bots/grid_bot.py, get_grid_actions)

    The engine is a pure function of the configuration and the current
    price.  Configuration values come from a free-form settings map, so
    each is optional; the isinstance checks of the source correspond to
    the presence checks here.  grid_levels is numpy.linspace: num_grids
    equally spaced levels from lower_limit to upper_limit inclusive. -/

inductive GridSide where
  | BUY
  | SELL
deriving DecidableEq

structure GridAction where
  action : GridSide
  price : ℚ
  grid_level : ℤ
deriving DecidableEq

/-- Grid configuration slice of the settings map. -/
structure GridConfig where
  upper_limit : Option ℚ := none
  lower_limit : Option ℚ := none
  num_grids : Option ℤ := none
deriving DecidableEq

/-- Level i of numpy.linspace(lower, upper, n): lower + i*(upper-lower)/(n-1). -/
def gridLevel (lower upper : ℚ) (n : ℤ) (i : ℤ) : ℚ :=
  lower + i * (upper - lower) / ((n : ℚ) - 1)

/-- Embedding of get_grid_actions (the live "revised simulation" of source
lines 93-122; the earlier per-level loop only executes pass statements).
Invalid configuration (missing/non-numeric bounds, upper ≤ lower,
num_grids < 2) yields no actions.  Otherwise: a BUY at the lowest level
when the price is below the second level, and a SELL at the highest level
when the price is above the second-to-last level. -/
def get_grid_actions (config : GridConfig) (current_price : ℚ) : List GridAction :=
  match config.upper_limit, config.lower_limit, config.num_grids with
  | some upper, some lower, some n =>
    if lower < upper ∧ 2 ≤ n then
      (if current_price < gridLevel lower upper n 1 then
        [{ action := .BUY, price := gridLevel lower upper n 0, grid_level := 0 }]
      else []) ++
      (if gridLevel lower upper n (n - 2) < current_price then
        [{ action := .SELL, price := gridLevel lower upper n (n - 1), grid_level := n - 1 }]
      else [])
    else []
  | _, _, _ => []

/-! ## DCA signal engine
    (backend/bots/dca_bot.py, should_invest_now and get_dca_actions)

    Timestamps are integer seconds (UTC).  The ticker fetch and the smart-
    dip moving-average computation are environment inputs: current_price
    is none when the ticker fetch would raise (the source then degrades to
    HOLD), and smart_dip_ma is the last moving-average value the pandas
    pipeline would produce, none when klines are empty, the MA type is
    unsupported, the frame is empty after dropna, or the computation
    raises (in all of which the source adds no dip action). -/

inductive DcaKind where
  | DCA_BUY
  | SMART_DIP_BUY
  | TRAILING_STOP_SELL
  | HOLD
deriving DecidableEq

/-- One DcaAction dictionary: action, amount (quote currency, None for
sell/hold), price (trigger price, None when unknown). -/
structure DcaAction where
  action : DcaKind
  amount : Option ℚ
  price : Option ℚ
deriving DecidableEq

/-- DCA configuration slice of the settings map, with the source's
defaults applied at the use sites (config.get defaults). -/
structure DcaConfig where
  investment_amount : Option ℚ := none
  frequency : Option String := none
  smart_dip_pct : Option ℚ := none
  smart_dip_ma_period : Option ℚ := none
  smart_dip_multiplier : Option ℚ := none
  trailing_stop_pct : Option ℚ := none
deriving DecidableEq

/-- Mutable per-bot state as passed to get_dca_actions. -/
structure DcaState where
  last_investment_time : Option ℤ := none
  average_purchase_price : Option ℚ := none
  highest_price_since_purchase : Option ℚ := none
  position_active : Bool := false
deriving DecidableEq

/-- Python truthiness of an optional string: None and the empty string
are falsy. -/
def pyTruthyStr (o : Option String) : Bool :=
  match o with
  | none => false
  | some s => s != ""

/-- Embedding of should_invest_now: true on the first investment
(no last_investment_time); otherwise compare the elapsed time against the
frequency window (daily = 86400 s, weekly = 604800 s, hourly = 3600 s);
unsupported frequencies never invest. -/
def should_invest_now (frequency : String) (last_investment_time : Option ℤ)
    (now : ℤ) : Bool :=
  match last_investment_time with
  | none => true
  | some t =>
    let delta : Option ℤ :=
      if frequency = "daily" then some 86400
      else if frequency = "weekly" then some 604800
      else if frequency = "hourly" then some 3600
      else none
    match delta with
    | none => false
    | some d => decide (t + d ≤ now)

/-- Embedding of get_dca_actions.  Order of evaluation follows the
source: config validation, ticker fetch, trailing-stop check with early
return, regular DCA investment, smart-dip check (only when no regular
investment fires), HOLD fallback. -/
def get_dca_actions (config : DcaConfig) (state : DcaState)
    (current_price : Option ℚ) (now : ℤ) (smart_dip_ma : Option ℚ) :
    List DcaAction :=
  if pyTruthy config.investment_amount = false ∨
      pyTruthyStr config.frequency = false then
    [{ action := .HOLD, amount := none, price := none }]
  else
    match current_price with
    | none => [{ action := .HOLD, amount := none, price := none }]
    | some price =>
      -- steps 3-4 of the source, reached when the trailing stop does not fire
      let rest : List DcaAction :=
        let invest_now := should_invest_now (config.frequency.getD "")
          state.last_investment_time now
        let regular : List DcaAction :=
          if invest_now then
            [{ action := .DCA_BUY, amount := config.investment_amount,
               price := some price }]
          else []
        let dip : List DcaAction :=
          if invest_now = false ∧ pyTruthy config.smart_dip_pct = true ∧
              pyTruthy (some (config.smart_dip_ma_period.getD 20)) = true then
            match smart_dip_ma with
            | some ma =>
              if price < ma * (1 - config.smart_dip_pct.getD 0 / 100) then
                [{ action := .SMART_DIP_BUY,
                   amount := some (config.investment_amount.getD 0 *
                     config.smart_dip_multiplier.getD 1),
                   price := some price }]
              else []
            | none => []
          else []
        let acts := regular ++ dip
        if acts.isEmpty then [{ action := .HOLD, amount := none, price := some price }]
        else acts
      -- step 2: trailing stop-loss, with early return
      match state.position_active, config.trailing_stop_pct,
          state.average_purchase_price, state.highest_price_since_purchase with
      | true, some pct, some avg, some highest =>
        if pct ≠ 0 ∧ avg ≠ 0 ∧ highest ≠ 0 then
          if price < highest * (1 - pct / 100) then
            [{ action := .TRAILING_STOP_SELL, amount := none, price := some price }]
          else rest
        else rest
      | _, _, _, _ => rest

/-! ## Bot scheduler loop
    (backend/main.py, run_active_bots_job)

    Each active bot is processed inside a per-bot try/except; the loop
    body dispatches on bot_type, computes the engine's intents, and - for
    momentum signals only - synchronously invokes the trade executor with
    a fixed placeholder sizing (quote 10.0 for BUY, quantity 0.001 for
    SELL, MARKET).  Grid and DCA intents are computed and logged but not
    executed, and the DCA state passed in is the literal dictionary of
    defaults, never loaded or persisted.

    The environment supplies what the collaborators would return per bot:
    the momentum engine's signal (get_momentum_signal catches its own
    exceptions, so it is total), the fallible ticker fetch used by the
    grid branch (an .error models an exception propagating to the per-bot
    handler), the DCA engine's ticker/MA inputs, and the fallible trade
    executor (an .error models an exception escaping execute_trade). -/

/-- Settings map of one bot, regrouped by the engine that reads the keys
(the source passes one free-form dict to every engine). -/
structure BotSettings where
  symbol : String := "BTCUSDT"
  grid : GridConfig := {}
  dca : DcaConfig := {}
deriving DecidableEq

/-- One active BotConfiguration row as the scheduler sees it. -/
structure Bot where
  id : ℤ
  bot_type : String
  settings : BotSettings
deriving DecidableEq

/-- Arguments of one synchronous execute_trade invocation made by the
scheduler loop. -/
structure ExecCall where
  bot_id : ℤ
  symbol : String
  side : Signal
  order_type : String
  quantity : Option ℚ
  quote_order_qty : Option ℚ
deriving DecidableEq

/-- Per-tick environment: what the exchange, the momentum engine and the
executor return for each bot. -/
structure SchedEnv where
  now : ℤ
  momentumSig : ℤ → Signal
  gridTicker : String → Except String ℚ
  dcaTicker : ℤ → Option ℚ
  dcaMa : ℤ → Option ℚ
  execTrade : ExecCall → Except String (Option ℤ)

/-- Intents one bot's evaluation produced (the signal / action_details
locals of the loop body). -/
inductive BotIntents where
  | momentum (sig : Signal)
  | grid (actions : List GridAction)
  | dca (actions : List DcaAction)
  | unknownType
deriving DecidableEq

/-- The dca_state literal the loop builds for every DCA bot on every
tick: all None / False (state is never loaded from or persisted to the
database). -/
def defaultDcaState : DcaState := {}

/-- Body of the per-bot try block: dispatch on bot_type, compute intents,
and invoke the executor for actionable momentum signals.  An .error is an
exception that the per-bot handler will catch. -/
def processBotInner (env : SchedEnv) (bot : Bot) :
    Except String (BotIntents × List ExecCall) :=
  if bot.bot_type = "momentum" then
    let sig := env.momentumSig bot.id
    if sig = .BUY ∨ sig = .SELL then
      let call : ExecCall :=
        if sig = .BUY then
          { bot_id := bot.id, symbol := bot.settings.symbol, side := sig,
            order_type := "MARKET", quantity := none, quote_order_qty := some 10 }
        else
          { bot_id := bot.id, symbol := bot.settings.symbol, side := sig,
            order_type := "MARKET", quantity := some (1 / 1000),
            quote_order_qty := none }
      do
        let _ ← env.execTrade call
        pure (.momentum sig, [call])
    else pure (.momentum sig, [])
  else if bot.bot_type = "grid" then do
    let price ← env.gridTicker bot.settings.symbol
    let actions := get_grid_actions bot.settings.grid price
    pure (.grid actions, [])
  else if bot.bot_type = "dca" then
    let actions := get_dca_actions bot.settings.dca defaultDcaState
      (env.dcaTicker bot.id) env.now (env.dcaMa bot.id)
    pure (.dca actions, [])
  else pure (.unknownType, [])

/-- Outcome of one bot's iteration: either its intents together with the
executor invocations made, or the error caught and logged with the bot's
identity. -/
inductive BotOutcome where
  | processed (id : ℤ) (intents : BotIntents) (calls : List ExecCall)
  | caughtError (id : ℤ) (msg : String)
deriving DecidableEq

/-- One bot's iteration with its try/except: any error from the body is
caught and recorded with the bot's id, never propagated. -/
def processBot (env : SchedEnv) (bot : Bot) : BotOutcome :=
  match processBotInner env bot with
  | .ok (intents, calls) => .processed bot.id intents calls
  | .error e => .caughtError bot.id e

/-- Embedding of the for-loop of run_active_bots_job over the active
bots. -/
def run_active_bots_job (env : SchedEnv) : List Bot → List BotOutcome
  | [] => []
  | bot :: rest => processBot env bot :: run_active_bots_job env rest

/-! ## Market-data fan-out service
    (backend/api/v1/endpoints/websockets.py)

    A labelled transition system over the module state: the
    binance_socket_tasks registry (one dict entry per symbol), the set of
    listener tasks ever created with their status, and the connection
    manager's per-symbol subscriber sets.  Each action is one atomic
    block of the asyncio code between suspension points:

    * subscribe: manager.connect plus the endpoint's start-listener guard
      (lines 134-156).  Once the shared async client exists - the lifespan
      initializes it at startup - awaiting get_async_binance_client does
      not suspend, so guard, task creation and registration run in one
      event-loop turn.
    * disconnect: manager.disconnect plus the endpoint's finally block
      (lines 165-178): when no connections remain for the symbol and a
      task is registered, cancel it if not done and drop the registry
      entry.  asyncio's Task.cancel only requests cancellation; the task
      keeps running until it processes it.
    * listenerStop: the listener coroutine terminating (processing a
      cancellation, or a fatal connection error) followed by its finally
      block (lines 121-125), which deletes whatever entry the registry
      currently holds for the listener's own symbol. -/

inductive TStatus where
  | running
  | cancelRequested
  | finished
deriving DecidableEq

structure TaskRec where
  tid : ℕ
  sym : String
  status : TStatus
deriving DecidableEq

/-- Fan-out module state: listener tasks, the binance_socket_tasks
registry, the connection manager's subscriber relation, and the id
counter for newly created tasks. -/
structure FanState where
  tasks : List TaskRec
  registry : List (String × ℕ)
  conns : List (String × ℕ)
  nextId : ℕ
deriving DecidableEq

def FanState.init : FanState := ⟨[], [], [], 0⟩

/-- Registered task for a symbol, if any
(binance_socket_tasks.get(symbol)). -/
def FanState.lookupReg (s : FanState) (sym : String) : Option ℕ :=
  (s.registry.find? (fun e => e.1 == sym)).map (·.2)

/-- Status of a task id, if the task exists. -/
def FanState.statusOf (s : FanState) (tid : ℕ) : Option TStatus :=
  (s.tasks.find? (fun t => t.tid == tid)).map (·.status)

/-- Drop the registry entry of a symbol (del binance_socket_tasks[sym]). -/
def FanState.removeReg (s : FanState) (sym : String) : FanState :=
  { s with registry := s.registry.filter (fun e => e.1 != sym) }

/-- Point the registry entry of a symbol at a task
(binance_socket_tasks[sym] = task). -/
def FanState.setReg (s : FanState) (sym : String) (tid : ℕ) : FanState :=
  { s with registry := (sym, tid) :: s.registry.filter (fun e => e.1 != sym) }

/-- Connections currently registered for a symbol
(manager.active_connections[sym]). -/
def FanState.connsFor (s : FanState) (sym : String) : List (String × ℕ) :=
  s.conns.filter (fun c => c.1 == sym)

/-- Mark a task's status. -/
def FanState.setStatus (s : FanState) (tid : ℕ) (st : TStatus) : FanState :=
  { s with tasks := s.tasks.map (fun t => if t.tid == tid then { t with status := st } else t) }

/-- Create a fresh listener task for a symbol and register it
(asyncio.create_task(binance_websocket_listener(sym));
binance_socket_tasks[sym] = task). -/
def FanState.startListener (s : FanState) (sym : String) : FanState :=
  let s' := s.setReg sym s.nextId
  { s' with tasks := ⟨s.nextId, sym, .running⟩ :: s'.tasks, nextId := s.nextId + 1 }

/-- Request cancellation of a task (task.cancel()): a running task moves
to cancelRequested; a finished task is unaffected. -/
def FanState.cancelTask (s : FanState) (tid : ℕ) : FanState :=
  { s with tasks := s.tasks.map (fun t =>
      if t.tid == tid ∧ t.status = .running then { t with status := .cancelRequested } else t) }

inductive FanAct where
  | subscribe (sym : String) (cid : ℕ)
  | disconnect (sym : String) (cid : ℕ)
  | listenerStop (tid : ℕ)
deriving DecidableEq

/-- One atomic step of the fan-out service. -/
def fanStep (s : FanState) : FanAct → FanState
  | .subscribe sym cid =>
    -- manager.connect
    let s := { s with conns := (sym, cid) :: s.conns }
    -- `if symbol_upper not in binance_socket_tasks or
    --     binance_socket_tasks[symbol_upper].done():` start a new listener
    match s.lookupReg sym with
    | none => s.startListener sym
    | some tid => if s.statusOf tid = some .finished then s.startListener sym else s
  | .disconnect sym cid =>
    -- manager.disconnect
    let s := { s with conns := s.conns.filter (fun c => !(c.1 == sym ∧ c.2 == cid)) }
    -- endpoint finally: tear down the listener when no connections remain
    if (s.connsFor sym).isEmpty then
      match s.lookupReg sym with
      | some tid =>
        let s := if s.statusOf tid ≠ some .finished then s.cancelTask tid else s
        s.removeReg sym
      | none => s
    else s
  | .listenerStop tid =>
    -- the listener coroutine exits; its finally block deletes the current
    -- registry entry for its OWN symbol, whichever task that entry names
    match (s.tasks.find? (fun t => t.tid == tid)) with
    | some t =>
      if t.status ≠ .finished then (s.setStatus tid .finished).removeReg t.sym else s
    | none => s

/-- Run a sequence of fan-out actions from a state. -/
def fanRun (s : FanState) : List FanAct → FanState
  | [] => s
  | a :: rest => fanRun (fanStep s a) rest

/-- Number of listener tasks for a symbol that are still running (not
finished, cancellation not yet requested). -/
def runningListeners (s : FanState) (sym : String) : ℕ :=
  (s.tasks.filter (fun t => t.sym == sym ∧ t.status = .running)).length

/-! ## Claim C2: quantity normalization -/

/-- C2 (amended).  For every positive quantity and positive step size,
normalization never rounds up (normalize(q,s) ≤ q), the result is an
integer multiple of 10^(-precision) - the granularity the code actually
floors to, which coincides with the step size exactly when the step size
is a power of ten - and normalization is idempotent. -/
theorem adjust_quantity_spec (q s : ℚ) (hq : 0 < q) (hs : 0 < s) :
    adjust_quantity_to_step_size q s ≤ q ∧
    (∃ k : ℤ, adjust_quantity_to_step_size q s =
      (k : ℚ) * 10 ^ (-(stepPrecision s))) ∧
    adjust_quantity_to_step_size (adjust_quantity_to_step_size q s) s =
      adjust_quantity_to_step_size q s := by
  have hf : (0 : ℚ) < 10 ^ stepPrecision s := zpow_pos (by norm_num) _
  have hf0 : (10 : ℚ) ^ stepPrecision s ≠ 0 := ne_of_gt hf
  refine ⟨?_, ⟨⌊q * 10 ^ stepPrecision s⌋, ?_⟩, ?_⟩
  · calc ((⌊q * 10 ^ stepPrecision s⌋ : ℚ)) / 10 ^ stepPrecision s
        ≤ (q * 10 ^ stepPrecision s) / 10 ^ stepPrecision s :=
          (div_le_div_iff_of_pos_right hf).mpr (Int.floor_le _)
      _ = q := mul_div_cancel_right₀ q hf0
  · rw [adjust_quantity_to_step_size, div_eq_mul_inv, zpow_neg]
  · show (⌊((⌊q * 10 ^ stepPrecision s⌋ : ℚ) / 10 ^ stepPrecision s) *
      10 ^ stepPrecision s⌋ : ℚ) / 10 ^ stepPrecision s = _
    rw [div_mul_cancel₀ _ hf0, Int.floor_intCast, adjust_quantity_to_step_size]

/-- C2 witness: the amended statement at q = 123.45, s = 0.001
(normalization floors to 123.45, which the three properties cover). -/
theorem adjust_quantity_spec_witness :
    adjust_quantity_to_step_size (12345/100) (1/1000) ≤ 12345/100 :=
  (adjust_quantity_spec (12345/100) (1/1000) (by norm_num) (by norm_num)).1

/-- C2 counterexample: with step size 0.3 (not a power of ten) the claim's
"multiple of s within floating tolerance" fails: normalize(0.4, 0.3)
evaluates to 0.4 itself, and the integer multiple of 0.3 nearest to it is
0.3, a full 0.1 away - far outside any floating tolerance. -/
theorem adjust_quantity_not_multiple_counterexample :
    adjust_quantity_to_step_size (2/5) (3/10) = 2/5 ∧
    round ((2/5 : ℚ) / (3/10)) * (3/10) - 2/5 = -(1/10) := by
  constructor
  · rw [adjust_quantity_to_step_size, stepPrecision_three_tenths]
    norm_num
  · norm_num [round_eq]

/-! ## Claim C1: minimum-notional rejection -/

/-- Base-asset quantity the executor will submit for a request carrying
quantity q: adjusted to the step size when the symbol has one, the raw
quantity otherwise. -/
def submittedQuantity (info : SymbolInfo) (q : ℚ) : ℚ :=
  match info.stepSize with
  | some s => adjust_quantity_to_step_size q s
  | none => q

/-- C1 (amended).  The executor rejects an order before submission
whenever the notional it actually computes is positive but below the
symbol's minimum: the quote-order quantity for a quote-sized MARKET BUY,
and adjusted quantity times limit price for a LIMIT order.  (MARKET
orders sized by base quantity are exempt: the current-price lookup of the
notional check is unreachable for them, so their notional stays 0 and the
check passes - see the counterexample.) -/
theorem execute_trade_below_min_notional_rejected :
    (∀ (info : SymbolInfo) (ticker : Option ℚ) (sym : String) (qq : ℚ),
        0 < qq → qq < info.minNotional.getD 5 →
        execute_trade (some info) ticker sym .BUY .MARKET none (some qq) none =
          none) ∧
    (∀ (info : SymbolInfo) (ticker : Option ℚ) (sym : String) (side : OrderSide)
        (q p : ℚ) (qq : Option ℚ),
        0 < p → 0 < submittedQuantity info q * p →
        submittedQuantity info q * p < info.minNotional.getD 5 →
        execute_trade (some info) ticker sym side .LIMIT (some q) qq (some p) =
          none) := by
  constructor
  · intro info ticker sym qq h0 hlt
    simp only [execute_trade, Option.isSome_some]
    norm_num [h0, hlt]
  · intro info ticker sym side q p qq hp h0 hlt
    have hpne : p ≠ 0 := ne_of_gt hp
    cases hstep : info.stepSize with
    | some s =>
      simp only [submittedQuantity, hstep] at h0 hlt
      have hq : 0 < adjust_quantity_to_step_size q s := by
        rcases mul_pos_iff.mp h0 with ⟨h, _⟩ | ⟨_, h⟩
        · exact h
        · linarith
      cases htick : info.tickSize with
      | some t =>
        simp [execute_trade, hstep, htick, not_le.mpr hq, pyTruthy, hpne, h0, hlt]
      | none =>
        simp [execute_trade, hstep, htick, not_le.mpr hq, pyTruthy, hpne, h0, hlt]
    | none =>
      simp only [submittedQuantity, hstep] at h0 hlt
      cases htick : info.tickSize with
      | some t => simp [execute_trade, hstep, htick, pyTruthy, hpne, h0, hlt]
      | none => simp [execute_trade, hstep, htick, pyTruthy, hpne, h0, hlt]

/-- Symbol info used in the concrete executor scenarios: step 0.001,
tick 0.01, minimum notional 5. -/
def infoSpec : SymbolInfo :=
  { stepSize := some (1/1000), tickSize := some (1/100), minNotional := some 5 }

/-- C1 witness: a quote-sized MARKET BUY of 1 (below the minimum notional
of 5) is rejected before submission. -/
theorem execute_trade_below_min_notional_rejected_witness :
    execute_trade (some infoSpec) none "BTCUSDT" .BUY .MARKET none (some 1)
      none = none :=
  execute_trade_below_min_notional_rejected.1 infoSpec none "BTCUSDT" 1
    (by norm_num) (by norm_num [infoSpec])

/-- C1 counterexample: a MARKET SELL of 0.001 BTC at a ticker price of 100
has notional 0.1, far below the minimum of 5, yet execute_trade submits
it: the notional check is skipped for MARKET orders sized by base
quantity (the source comments "We'll skip the check for MARKET SELL for
simplicity here"), so the order reaches create_order. -/
theorem execute_trade_market_sell_below_notional_submitted :
    execute_trade (some infoSpec) (some 100) "BTCUSDT" .SELL .MARKET
      (some (1/1000)) none none =
      some { symbol := "BTCUSDT", side := .SELL, type := .MARKET,
             quantity := some (1/1000) } ∧
    (1/1000 : ℚ) * 100 < infoSpec.minNotional.getD 5 := by
  constructor
  · norm_num [execute_trade, infoSpec, adjust_quantity_to_step_size,
      stepPrecision_thousandth, pyTruthy]
  · norm_num [infoSpec]

/-! ## Claim C3: momentum signal characterization -/

/-- On a row sequence with at least two valid rows the momentum engine
compares exactly the last two rows. -/
theorem get_momentum_signal_append (l : List IndicatorRow) (a b : IndicatorRow)
    (os ob : ℚ) :
    get_momentum_signal (l ++ [a, b]) os ob = momentum_signal_logic a b os ob := by
  have hlen : (l ++ [a, b]).length = l.length + 2 := by simp
  rw [get_momentum_signal, dif_neg (by omega)]
  congr 1
  · have h2 : (l ++ [a, b]).length - 2 = l.length := by omega
    rw [List.get_eq_getElem]
    simp only [h2]
    rw [List.getElem_append_right (by omega)]
    simp
  · have h1 : (l ++ [a, b]).length - 1 = l.length + 1 := by omega
    rw [List.get_eq_getElem]
    simp only [h1]
    rw [List.getElem_append_right (by omega)]
    simp

/-- Exact characterization of the decision core: BUY on a bullish MA
cross with bullish MACD and RSI below the overbought threshold, SELL on
the mirror conditions, HOLD otherwise; the two are mutually exclusive. -/
theorem momentum_signal_logic_iff (a b : IndicatorRow) (os ob : ℚ) :
    (momentum_signal_logic a b os ob = .BUY ↔
      a.sma_short ≤ a.sma_long ∧ b.sma_long < b.sma_short ∧
      b.macd_signal < b.macd ∧ 0 < b.macd_hist ∧ b.rsi < ob) ∧
    (momentum_signal_logic a b os ob = .SELL ↔
      a.sma_long ≤ a.sma_short ∧ b.sma_short < b.sma_long ∧
      b.macd < b.macd_signal ∧ b.macd_hist < 0 ∧ os < b.rsi) ∧
    (momentum_signal_logic a b os ob = .HOLD ↔
      ¬(a.sma_short ≤ a.sma_long ∧ b.sma_long < b.sma_short ∧
        b.macd_signal < b.macd ∧ 0 < b.macd_hist ∧ b.rsi < ob) ∧
      ¬(a.sma_long ≤ a.sma_short ∧ b.sma_short < b.sma_long ∧
        b.macd < b.macd_signal ∧ b.macd_hist < 0 ∧ os < b.rsi)) := by
  unfold momentum_signal_logic
  split_ifs with h1 h2
  · exact ⟨iff_of_true rfl h1,
      iff_of_false (by simp) (fun hc => lt_asymm h1.2.1 hc.2.1),
      iff_of_false (by simp) (fun hc => hc.1 h1)⟩
  · exact ⟨iff_of_false (by simp) h1, iff_of_true rfl h2,
      iff_of_false (by simp) (fun hc => hc.2 h2)⟩
  · exact ⟨iff_of_false (by simp) h1, iff_of_false (by simp) h2,
      iff_of_true rfl ⟨h1, h2⟩⟩

/-- C3.  On every candle sequence with at least two valid indicator rows
(every such sequence is some l ++ [prev, latest]), the momentum engine
returns BUY exactly when the short MA crosses above the long MA over the
most recent two rows and the MACD line is above the signal line and the
histogram is positive and RSI is below the overbought threshold; SELL
exactly under the mirrored conditions; HOLD otherwise. -/
theorem momentum_signal_characterization (l : List IndicatorRow)
    (prev latest : IndicatorRow) (os ob : ℚ) :
    (get_momentum_signal (l ++ [prev, latest]) os ob = .BUY ↔
      prev.sma_short ≤ prev.sma_long ∧ latest.sma_long < latest.sma_short ∧
      latest.macd_signal < latest.macd ∧ 0 < latest.macd_hist ∧
      latest.rsi < ob) ∧
    (get_momentum_signal (l ++ [prev, latest]) os ob = .SELL ↔
      prev.sma_long ≤ prev.sma_short ∧ latest.sma_short < latest.sma_long ∧
      latest.macd < latest.macd_signal ∧ latest.macd_hist < 0 ∧
      os < latest.rsi) ∧
    (get_momentum_signal (l ++ [prev, latest]) os ob = .HOLD ↔
      ¬(prev.sma_short ≤ prev.sma_long ∧ latest.sma_long < latest.sma_short ∧
        latest.macd_signal < latest.macd ∧ 0 < latest.macd_hist ∧
        latest.rsi < ob) ∧
      ¬(prev.sma_long ≤ prev.sma_short ∧ latest.sma_short < latest.sma_long ∧
        latest.macd < latest.macd_signal ∧ latest.macd_hist < 0 ∧
        os < latest.rsi)) := by
  rw [get_momentum_signal_append]
  exact momentum_signal_logic_iff prev latest os ob

/-! ## Claims C4 and C5: DCA engine -/

/-- DCA configuration of the source's own test scenario: 50 USDT daily,
smart dip 5% below the 20-period SMA with multiplier 1.5, trailing stop
10%. -/
def dcaCfgSpec : DcaConfig :=
  { investment_amount := some 50, frequency := some "daily",
    smart_dip_pct := some 5, smart_dip_ma_period := some 20,
    smart_dip_multiplier := some (3/2), trailing_stop_pct := some 10 }

/-- DCA state of the trailing-stop scenario: active position bought at an
average of 3000, high-water mark 3500. -/
def dcaStateSpec : DcaState :=
  { last_investment_time := none, average_purchase_price := some 3000,
    highest_price_since_purchase := some 3500, position_active := true }

theorem pyTruthyStr_daily : pyTruthyStr (some "daily") = true := by decide

/-- C4.  Whenever the DCA engine evaluates with a valid configuration
(investment amount and frequency present and truthy), an active position,
and truthy trailing-stop percentage, average purchase price and
high-water mark, then a current price strictly below
highest * (1 - pct/100) makes TRAILING_STOP_SELL the engine's only
emitted action (early return - no DCA_BUY or SMART_DIP_BUY in the same
call).  Concretely, with highest = 3500 and pct = 10 the stop is 3150:
price 3140 triggers the sell, price 3200 instead falls through to a
regular DCA_BUY. -/
theorem dca_trailing_stop_spec :
    (∀ (config : DcaConfig) (state : DcaState) (price : ℚ) (now : ℤ)
        (ma : Option ℚ) (pct avg highest : ℚ),
        pyTruthy config.investment_amount = true →
        pyTruthyStr config.frequency = true →
        state.position_active = true →
        config.trailing_stop_pct = some pct → pct ≠ 0 →
        state.average_purchase_price = some avg → avg ≠ 0 →
        state.highest_price_since_purchase = some highest → highest ≠ 0 →
        price < highest * (1 - pct / 100) →
        get_dca_actions config state (some price) now ma =
          [{ action := .TRAILING_STOP_SELL, amount := none,
             price := some price }]) ∧
    (∀ (now : ℤ) (ma : Option ℚ),
        get_dca_actions dcaCfgSpec dcaStateSpec (some 3140) now ma =
          [{ action := .TRAILING_STOP_SELL, amount := none,
             price := some 3140 }]) ∧
    (∀ (now : ℤ) (ma : Option ℚ),
        get_dca_actions dcaCfgSpec dcaStateSpec (some 3200) now ma =
          [{ action := .DCA_BUY, amount := some 50, price := some 3200 }]) ∧
    (3500 : ℚ) * (1 - 10 / 100) = 3150 := by
  refine ⟨?_, ?_, ?_, by norm_num⟩
  · intro config state price now ma pct avg highest hIA hFreq hPos hTs hpct
      hAvg havg hHigh hhigh hprice
    simp [get_dca_actions, hIA, hFreq, hPos, hTs, hAvg, hHigh, hpct, havg,
      hhigh, hprice]
  · intro now ma
    norm_num [get_dca_actions, dcaCfgSpec, dcaStateSpec, pyTruthy,
      pyTruthyStr_daily]
  · intro now ma
    norm_num [get_dca_actions, dcaCfgSpec, dcaStateSpec, pyTruthy,
      pyTruthyStr_daily, should_invest_now]

/-- C4 witness: the general clause applied to the source's own test
scenario at price 3140 and an arbitrary clock/MA environment. -/
theorem dca_trailing_stop_spec_witness :
    get_dca_actions dcaCfgSpec dcaStateSpec (some 3140) 0 none =
      [{ action := .TRAILING_STOP_SELL, amount := none,
         price := some 3140 }] :=
  dca_trailing_stop_spec.1 dcaCfgSpec dcaStateSpec 3140 0 none 10 3000 3500
    (by norm_num [pyTruthy, dcaCfgSpec]) (by rw [dcaCfgSpec]; exact pyTruthyStr_daily)
    rfl rfl (by norm_num) rfl (by norm_num) rfl (by norm_num) (by norm_num)

/-- C5.  should_invest_now invests on the first run (no prior
investment time); for daily/weekly/hourly it invests exactly when the
elapsed time reaches one day / one week / one hour; any other frequency
string never invests. -/
theorem should_invest_now_spec :
    (∀ now : ℤ, should_invest_now "daily" none now = true) ∧
    (∀ now t : ℤ, 86400 ≤ now - t →
        should_invest_now "daily" (some t) now = true) ∧
    (∀ now t : ℤ, now - t < 86400 →
        should_invest_now "daily" (some t) now = false) ∧
    (∀ now t : ℤ, 604800 ≤ now - t →
        should_invest_now "weekly" (some t) now = true) ∧
    (∀ now t : ℤ, now - t < 604800 →
        should_invest_now "weekly" (some t) now = false) ∧
    (∀ now t : ℤ, 3600 ≤ now - t →
        should_invest_now "hourly" (some t) now = true) ∧
    (∀ now t : ℤ, now - t < 3600 →
        should_invest_now "hourly" (some t) now = false) ∧
    (∀ (f : String) (now t : ℤ), f ≠ "daily" → f ≠ "weekly" → f ≠ "hourly" →
        should_invest_now f (some t) now = false) := by
  refine ⟨fun now => rfl, ?_, ?_, ?_, ?_, ?_, ?_, ?_⟩
  · intro now t h
    simp only [should_invest_now, if_pos rfl]
    simpa using by omega
  · intro now t h
    simp only [should_invest_now, if_pos rfl]
    simpa using by omega
  · intro now t h
    simp only [should_invest_now,
      if_neg (show ¬("weekly" : String) = "daily" from by decide), if_pos rfl]
    simpa using by omega
  · intro now t h
    simp only [should_invest_now,
      if_neg (show ¬("weekly" : String) = "daily" from by decide), if_pos rfl]
    simpa using by omega
  · intro now t h
    simp only [should_invest_now,
      if_neg (show ¬("hourly" : String) = "daily" from by decide),
      if_neg (show ¬("hourly" : String) = "weekly" from by decide), if_pos rfl]
    simpa using by omega
  · intro now t h
    simp only [should_invest_now,
      if_neg (show ¬("hourly" : String) = "daily" from by decide),
      if_neg (show ¬("hourly" : String) = "weekly" from by decide), if_pos rfl]
    simpa using by omega
  · intro f now t h1 h2 h3
    simp [should_invest_now, h1, h2, h3]

/-- C5 witness: first investment, two days' elapsed time, and two hours'
elapsed time for the daily frequency, plus an unsupported frequency. -/
theorem should_invest_now_spec_witness :
    should_invest_now "daily" (some 0) 172800 = true :=
  should_invest_now_spec.2.1 172800 0 (by norm_num)

/-! ## Claims C6 and C10: grid engine -/

/-- Grid configuration of the source's own test scenario: limits
48000..52000 with 5 levels (48000, 49000, 50000, 51000, 52000). -/
def gridCfgSpec : GridConfig :=
  { upper_limit := some 52000, lower_limit := some 48000, num_grids := some 5 }

/-- C6 counterexample: at price 49500 the engine returns no actions at
all - in particular no SELL at 49000.  The engine is stateless (it takes
no ledger of open buys), and its only SELL trigger is a price above the
second-to-last level (51000). -/
theorem grid_no_sell_at_49500_counterexample :
    get_grid_actions gridCfgSpec 49500 = [] := by
  norm_num [get_grid_actions, gridCfgSpec, gridLevel]

/-- C6 (amended).  For the 48000..52000 / 5-level configuration, price
47500 yields exactly one BUY at 48000 (grid level 0); a subsequent
evaluation at 49500 yields no actions: there is no open-buy ledger, and a
SELL (always at 52000) requires a price above 51000. -/
theorem grid_spec_scenario :
    get_grid_actions gridCfgSpec 47500 =
      [{ action := .BUY, price := 48000, grid_level := 0 }] ∧
    get_grid_actions gridCfgSpec 49500 = [] := by
  constructor
  · norm_num [get_grid_actions, gridCfgSpec, gridLevel]
  · norm_num [get_grid_actions, gridCfgSpec, gridLevel]

/-- C10.  For every valid configuration the grid engine returns at most
two actions; a BUY is always at the lowest level (price lower_limit,
grid level 0) and occurs exactly when the price is below the second
level; a SELL is always at the highest level and occurs exactly when the
price is above the second-to-last level; with num_grids = 2 and a price
strictly between the limits, one BUY and one SELL are returned
together. -/
theorem grid_actions_structure (u l : ℚ) (n : ℤ) (cfg : GridConfig) (price : ℚ)
    (hu : cfg.upper_limit = some u) (hl : cfg.lower_limit = some l)
    (hn : cfg.num_grids = some n) (hlt : l < u) (h2 : 2 ≤ n) :
    (get_grid_actions cfg price).length ≤ 2 ∧
    (∀ a ∈ get_grid_actions cfg price, a.action = .BUY →
        a.price = l ∧ a.grid_level = 0) ∧
    ((∃ a ∈ get_grid_actions cfg price, a.action = .BUY) ↔
        price < gridLevel l u n 1) ∧
    (∀ a ∈ get_grid_actions cfg price, a.action = .SELL →
        a.price = gridLevel l u n (n - 1) ∧ a.grid_level = n - 1) ∧
    ((∃ a ∈ get_grid_actions cfg price, a.action = .SELL) ↔
        gridLevel l u n (n - 2) < price) ∧
    (n = 2 → l < price → price < u →
        get_grid_actions cfg price =
          [{ action := .BUY, price := l, grid_level := 0 },
           { action := .SELL, price := u, grid_level := 1 }]) := by
  have hres : get_grid_actions cfg price =
      (if price < gridLevel l u n 1 then
        [{ action := .BUY, price := gridLevel l u n 0, grid_level := 0 }]
      else []) ++
      (if gridLevel l u n (n - 2) < price then
        [{ action := .SELL, price := gridLevel l u n (n - 1), grid_level := n - 1 }]
      else []) := by
    simp [get_grid_actions, hu, hl, hn, hlt, h2]
  have hlvl0 : gridLevel l u n 0 = l := by simp [gridLevel]
  refine ⟨?_, ?_, ?_, ?_, ?_, ?_⟩
  · rw [hres]
    by_cases hb : price < gridLevel l u n 1 <;>
      by_cases hs : gridLevel l u n (n - 2) < price <;> simp [hb, hs]
  · rw [hres]
    by_cases hb : price < gridLevel l u n 1 <;>
      by_cases hs : gridLevel l u n (n - 2) < price <;>
      simp [hb, hs, hlvl0]
  · rw [hres]
    by_cases hb : price < gridLevel l u n 1 <;>
      by_cases hs : gridLevel l u n (n - 2) < price <;>
      simp [hb, hs]
  · rw [hres]
    by_cases hb : price < gridLevel l u n 1 <;>
      by_cases hs : gridLevel l u n (n - 2) < price <;>
      simp [hb, hs]
  · rw [hres]
    by_cases hb : price < gridLevel l u n 1 <;>
      by_cases hs : gridLevel l u n (n - 2) < price <;>
      simp [hb, hs]
  · intro hn2 hlp hpu
    subst hn2
    have e1 : gridLevel l u 2 1 = u := by
      rw [gridLevel]; push_cast; ring_nf
    have e0 : gridLevel l u 2 0 = l := by simp [gridLevel]
    rw [hres]
    norm_num [e1, e0, hpu, hlp]

/-- Two-level grid configuration exercising the BUY-and-SELL-together
case. -/
def gridCfgTwo : GridConfig :=
  { upper_limit := some 100, lower_limit := some 50, num_grids := some 2 }

/-- C10 witness: with two levels 50 and 100 and price 75 strictly
between them, the engine returns the BUY at 50 and the SELL at 100
together. -/
theorem grid_actions_structure_witness :
    get_grid_actions gridCfgTwo 75 =
      [{ action := .BUY, price := 50, grid_level := 0 },
       { action := .SELL, price := 100, grid_level := 1 }] :=
  (grid_actions_structure 100 50 2 gridCfgTwo 75 rfl rfl rfl (by norm_num)
    (by norm_num)).2.2.2.2.2 rfl (by norm_num) (by norm_num)

/-! ## Claims C7 and C8: scheduler loop -/

/-- Grid bot whose evaluation at the environment below produces an
actionable BUY intent. -/
def gridBotSpec : Bot :=
  { id := 7, bot_type := "grid",
    settings := { symbol := "BTCUSDT", grid := gridCfgSpec, dca := {} } }

/-- DCA bot whose evaluation at the environment below produces an
actionable DCA_BUY intent. -/
def dcaBotSpec : Bot :=
  { id := 8, bot_type := "dca",
    settings := { symbol := "ETHUSDT", grid := {}, dca := dcaCfgSpec } }

/-- Healthy environment: grid ticker at 47500 (below the second grid
level of gridCfgSpec), DCA ticker at 3000, executor succeeding. -/
def envSpec : SchedEnv :=
  { now := 0, momentumSig := fun _ => .HOLD, gridTicker := fun _ => .ok 47500,
    dcaTicker := fun _ => some 3000, dcaMa := fun _ => none,
    execTrade := fun _ => .ok none }

/-- C7 (divergence evidence).  A grid bot with an actionable BUY intent
and a DCA bot with an actionable DCA_BUY intent are both processed with
an empty executor-call list: the scheduler invokes the executor for
momentum signals only, grid and DCA intents are computed and logged but
never executed.  Moreover the DCA state the loop passes to the engine is
the literal all-defaults dictionary (nothing is loaded or persisted
across ticks). -/
theorem scheduler_actionable_intents_not_executed :
    processBot envSpec gridBotSpec =
      .processed 7 (.grid [{ action := .BUY, price := 48000, grid_level := 0 }])
        [] ∧
    processBot envSpec dcaBotSpec =
      .processed 8
        (.dca [{ action := .DCA_BUY, amount := some 50, price := some 3000 }])
        [] ∧
    defaultDcaState.last_investment_time = none ∧
    defaultDcaState.average_purchase_price = none ∧
    defaultDcaState.highest_price_since_purchase = none ∧
    defaultDcaState.position_active = false := by
  refine ⟨?_, ?_, rfl, rfl, rfl, rfl⟩
  · norm_num [processBot, processBotInner, envSpec, gridBotSpec,
      get_grid_actions, gridCfgSpec, gridLevel, pure, Except.pure,
      Bind.bind, Except.bind,
      show ¬("grid" : String) = "momentum" from by decide]
  · norm_num [processBot, processBotInner, envSpec, dcaBotSpec,
      get_dca_actions, dcaCfgSpec, defaultDcaState, pyTruthy,
      pyTruthyStr_daily, should_invest_now, pure, Except.pure,
      show ¬("dca" : String) = "momentum" from by decide,
      show ¬("dca" : String) = "grid" from by decide]

/-- Environment for the isolation scenario: the grid ticker fetch raises,
the momentum engine signals BUY, the executor succeeds. -/
def envFail : SchedEnv :=
  { now := 0, momentumSig := fun _ => .BUY,
    gridTicker := fun _ => .error "ticker down", dcaTicker := fun _ => none,
    dcaMa := fun _ => none, execTrade := fun _ => .ok (some 1) }

/-- Grid bot whose ticker fetch fails in envFail. -/
def gridBotFail : Bot :=
  { id := 21, bot_type := "grid",
    settings := { symbol := "BTCUSDT", grid := gridCfgSpec, dca := {} } }

/-- Momentum bot that signals BUY in envFail. -/
def momBotSpec : Bot :=
  { id := 22, bot_type := "momentum", settings := { symbol := "BTCUSDT" } }

/-- Bot with an invalid bot_type. -/
def badBotSpec : Bot :=
  { id := 23, bot_type := "mean_reversion", settings := {} }

/-- The executor invocation the scheduler makes for a momentum BUY:
MARKET order, quote-sized at 10 USDT. -/
def execCallSpec : ExecCall :=
  { bot_id := 22, symbol := "BTCUSDT", side := .BUY, order_type := "MARKET",
    quantity := none, quote_order_qty := some 10 }

/-- C8.  Per-bot isolation of the scheduler tick: the batch always
produces one outcome per active bot; the outcome at every position
depends only on that bot (it equals the bot's standalone processing, for
any environment and any surrounding bots); an error raised while
processing a bot is caught and recorded with that bot's id.  Concretely,
a tick over a failing grid bot, a momentum bot signalling BUY and a bot
with an invalid bot_type logs the first bot's error yet still evaluates
the momentum bot and synchronously executes its trade, and processes the
invalid-type bot as a no-op. -/
theorem scheduler_per_bot_isolation :
    (∀ (env : SchedEnv) (bots : List Bot),
        (run_active_bots_job env bots).length = bots.length) ∧
    (∀ (env : SchedEnv) (bots : List Bot) (i : ℕ),
        (run_active_bots_job env bots)[i]? =
          (bots[i]?).map (processBot env)) ∧
    (∀ (env : SchedEnv) (bot : Bot) (e : String),
        processBotInner env bot = .error e →
        processBot env bot = .caughtError bot.id e) ∧
    run_active_bots_job envFail [gridBotFail, momBotSpec, badBotSpec] =
      [.caughtError 21 "ticker down",
       .processed 22 (.momentum .BUY) [execCallSpec],
       .processed 23 .unknownType []] := by
  refine ⟨?_, ?_, ?_, ?_⟩
  · intro env bots
    induction bots with
    | nil => simp [run_active_bots_job]
    | cons b bs ih => simp [run_active_bots_job, ih]
  · intro env bots
    induction bots with
    | nil => intro i; simp [run_active_bots_job]
    | cons b bs ih =>
      intro i
      cases i with
      | zero => simp [run_active_bots_job]
      | succ j => simp [run_active_bots_job, ih j]
  · intro env bot e h
    simp [processBot, h]
  · norm_num [run_active_bots_job, processBot, processBotInner, envFail,
      gridBotFail, momBotSpec, badBotSpec, execCallSpec, pure, Except.pure,
      Bind.bind, Except.bind,
      show ¬("grid" : String) = "momentum" from by decide,
      show ¬("mean_reversion" : String) = "momentum" from by decide,
      show ¬("mean_reversion" : String) = "grid" from by decide,
      show ¬("mean_reversion" : String) = "dca" from by decide]

/-- C8 witness: the caught-error clause applied to the failing grid bot:
its ticker error is caught and attributed to bot 21. -/
theorem scheduler_per_bot_isolation_witness :
    processBot envFail gridBotFail = .caughtError 21 "ticker down" :=
  scheduler_per_bot_isolation.2.2.1 envFail gridBotFail "ticker down"
    (by norm_num [processBotInner, envFail, gridBotFail, Bind.bind,
      Except.bind, show ¬("grid" : String) = "momentum" from by decide])

/-! ## Claim C9: fan-out listener registry -/

/-- Action trace reaching a duplicated listener: a subscriber comes and
goes (task 0 is cancelled and deregistered), a second subscriber starts
task 1, then task 0 finishes processing its cancellation and its cleanup
deletes the registry entry - which by now names task 1 - so a third
subscriber starts task 2 while task 1 is still running. -/
def duplicateListenerTrace : List FanAct :=
  [.subscribe "BTCUSDT" 1, .disconnect "BTCUSDT" 1, .subscribe "BTCUSDT" 2,
   .listenerStop 0, .subscribe "BTCUSDT" 3]

/-- C9 counterexample: the state reached from the initial state by
duplicateListenerTrace holds two running (neither finished nor
cancel-requested) upstream listener tasks for BTCUSDT, refuting the
at-most-one-running-listener-per-symbol invariant. -/
theorem fanout_duplicate_listener_counterexample :
    runningListeners (fanRun FanState.init duplicateListenerTrace) "BTCUSDT" = 2 := by
  decide

/-- C9 (amended).  The subscribe guard itself is correct: when the
registry maps a symbol to a listener that is not finished, a further
subscriber for that symbol creates no task, changes no registry entry and
consumes no task id (it is registered as one more connection only).  The
stronger claim - at most one running listener per symbol in every
reachable state - fails, because a cancelled listener terminating deletes
whatever registry entry its symbol currently has, orphaning a newer
running listener (see the counterexample). -/
theorem fanout_subscribe_guard (s : FanState) (sym : String) (cid tid : ℕ)
    (hreg : s.lookupReg sym = some tid)
    (hrun : s.statusOf tid ≠ some .finished) :
    (fanStep s (.subscribe sym cid)).tasks = s.tasks ∧
    (fanStep s (.subscribe sym cid)).registry = s.registry ∧
    (fanStep s (.subscribe sym cid)).nextId = s.nextId ∧
    (fanStep s (.subscribe sym cid)).conns = (sym, cid) :: s.conns := by
  have hreg' : FanState.lookupReg { s with conns := (sym, cid) :: s.conns } sym =
      some tid := hreg
  have hrun' : FanState.statusOf { s with conns := (sym, cid) :: s.conns } tid ≠
      some .finished := hrun
  simp [fanStep, hreg', hrun']

/-- C9 witness: in the state with one subscriber and one running listener
for BTCUSDT, a second concurrent subscriber does not create a duplicate
task. -/
theorem fanout_subscribe_guard_witness :
    (fanStep (fanRun FanState.init [.subscribe "BTCUSDT" 1])
      (.subscribe "BTCUSDT" 2)).tasks =
      (fanRun FanState.init [.subscribe "BTCUSDT" 1]).tasks :=
  (fanout_subscribe_guard (fanRun FanState.init [.subscribe "BTCUSDT" 1])
    "BTCUSDT" 2 0 (by decide) (by decide)).1

end TradingBots
